import Mathlib

/-!
Shallow embedding of `src/datafusion/spark/src/function/math/factorial.rs`:
the Spark-compatible `factorial` scalar UDF for DataFusion.

Machine integers (`i32`, `i64`) are embedded as `Int`; the code performs no
arithmetic that can overflow (the factorial values are read from a fixed table
whose entries all fit in 64 bits, which is proved below), so this embedding is
faithful on the whole `i32` input range.  Fallible Rust functions returning
`Result<T, DataFusionError>` become `Except DataFusionError T`.
-/

/-- Arrow `DataType`, restricted to the variants this module can encounter:
`Int32` (the declared input type), `Int64` (the output type), and sample
non-`Int32` types standing for "any other type" at the dispatch boundary. -/
inductive DataType where
  | int32
  | int64
  | utf8
  | boolean
  deriving DecidableEq, Repr

/-- The Display rendering of an Arrow `DataType` (Arrow prints the type name,
for example `Int32` or `Utf8`). -/
def DataType.display : DataType → String
  | .int32 => "Int32"
  | .int64 => "Int64"
  | .utf8 => "Utf8"
  | .boolean => "Boolean"

/-- `datafusion_common::ScalarValue`, restricted to the variants relevant to
this module: `Int32` (accepted input), `Int64` (produced output), and sample
other variants standing for "a scalar of another type". -/
inductive ScalarValue where
  | int32 : Option Int → ScalarValue
  | int64 : Option Int → ScalarValue
  | utf8 : Option String → ScalarValue
  | boolean : Option Bool → ScalarValue
  deriving DecidableEq, Repr

/-- Modelled from the spec: the rendering of a non-`Int32` scalar argument into
the error message. The rendering is implemented by the external
`datafusion_common` crate (not under `src/`); per the spec the resulting
invalid-argument error names the unexpected type. -/
def ScalarValue.display : ScalarValue → String
  | .int32 _ => "Int32"
  | .int64 _ => "Int64"
  | .utf8 _ => "Utf8"
  | .boolean _ => "Boolean"

/-- An Arrow array, restricted to the element types relevant to this module:
an `Int32` array (accepted input), an `Int64` array (produced output), and
sample other element types standing for "an array of another element type".
Each array is its list of optional elements (the null bitmap is the `none`
positions). -/
inductive ArrowArray where
  | int32 : List (Option Int) → ArrowArray
  | int64 : List (Option Int) → ArrowArray
  | utf8 : List (Option String) → ArrowArray
  | boolean : List (Option Bool) → ArrowArray
  deriving DecidableEq, Repr

/-- `Array::data_type` for the embedded arrays. -/
def ArrowArray.data_type : ArrowArray → DataType
  | .int32 _ => .int32
  | .int64 _ => .int64
  | .utf8 _ => .utf8
  | .boolean _ => .boolean

/-- `datafusion_expr::ColumnarValue`: either a single scalar or a columnar
array. -/
inductive ColumnarValue where
  | scalar : ScalarValue → ColumnarValue
  | array : ArrowArray → ColumnarValue
  deriving DecidableEq, Repr

/-- `datafusion_common::DataFusionError`, restricted to the kinds this module
produces: `Execution` (from `exec_err!`, the invalid-argument errors at the
call boundary) and `Internal` (from `internal_err!`). -/
inductive DataFusionError where
  | execution : String → DataFusionError
  | internal : String → DataFusionError
  deriving DecidableEq, Repr

/-- `arrow::datatypes::Field`: a named, typed, nullability-flagged column
descriptor. -/
structure ArrowField where
  fname : String
  data_type : DataType
  nullable : Bool
  deriving DecidableEq, Repr

/-- `datafusion_expr::ReturnFieldArgs`: the declared argument fields and the
statically-known scalar arguments. -/
structure ReturnFieldArgs where
  arg_fields : List ArrowField
  scalar_arguments : List (Option ScalarValue)
  deriving DecidableEq, Repr

/-- `datafusion_expr::Volatility`. -/
inductive Volatility where
  | immutable
  | stable
  | volatile
  deriving DecidableEq, Repr

/-- `datafusion_expr::TypeSignature`, restricted to the `Exact` variant used
here. -/
inductive TypeSignature where
  | exact : List DataType → TypeSignature
  deriving DecidableEq, Repr

/-- `datafusion_expr::Signature`. -/
structure Signature where
  type_signature : TypeSignature
  volatility : Volatility
  deriving DecidableEq, Repr

/-- `Signature::exact`. -/
def Signature.exact (types : List DataType) (v : Volatility) : Signature :=
  ⟨TypeSignature.exact types, v⟩

/-- The `SparkFactorial` UDF struct. -/
structure SparkFactorial where
  signature : Signature
  aliases : List String
  deriving DecidableEq, Repr

/-- `SparkFactorial::new`. -/
def SparkFactorial.new : SparkFactorial :=
  { signature := Signature.exact [DataType.int32] Volatility.immutable
    aliases := [] }

/-- `ScalarUDFImpl::name` for `SparkFactorial`. -/
def SparkFactorial.fname (_ : SparkFactorial) : String := "factorial"

/-- `ScalarUDFImpl::return_type` for `SparkFactorial`: unconditionally an
internal error. -/
def SparkFactorial.return_type (_ : SparkFactorial) (_arg_types : List DataType) :
    Except DataFusionError DataType :=
  Except.error (DataFusionError.internal
    "return_type should not be called, use return_field_from_args instead")

/-- `ScalarUDFImpl::return_field_from_args` for `SparkFactorial`: an `Int64`
field named `factorial`, nullable whenever any argument field is nullable. -/
def SparkFactorial.return_field_from_args (self : SparkFactorial)
    (args : ReturnFieldArgs) : Except DataFusionError ArrowField :=
  let nullable := args.arg_fields.any (fun f => f.nullable)
  Except.ok { fname := self.fname, data_type := DataType.int64, nullable := nullable }

/-- `const FACTORIALS: [i64; 21]`: the factorial lookup table. -/
def FACTORIALS : List Int :=
  [1,
   1,
   2,
   6,
   24,
   120,
   720,
   5040,
   40320,
   362880,
   3628800,
   39916800,
   479001600,
   6227020800,
   87178291200,
   1307674368000,
   20922789888000,
   355687428096000,
   6402373705728000,
   121645100408832000,
   2432902008176640000]

/-- `compute_factorial`: keep the value only when it lies in `0..=20`, then
look it up in `FACTORIALS`.  The source indexes `FACTORIALS[v as usize]` under
the range guard; the embedding uses `getD` with an (unreachable, proved
in-bounds below) default. -/
def compute_factorial (num : Option Int) : Option Int :=
  (num.filter (fun v => decide (0 ≤ v ∧ v ≤ 20))).map
    (fun v => FACTORIALS.getD v.toNat 0)

/-- Modelled from the spec: the arity check done by the external helper
`datafusion_common::utils::take_function_args` (not under `src/`).  Per the
spec, a call with a number of arguments different from one is rejected with an
invalid-argument error before any evaluation. -/
def take_function_args1 (fname : String) (args : List ColumnarValue) :
    Except DataFusionError ColumnarValue :=
  match args with
  | [arg] => Except.ok arg
  | _ => Except.error (DataFusionError.execution
      (fname ++ " function requires 1 argument, got " ++ toString args.length))

/-- `spark_factorial`: arity check, then dispatch on the single argument's
shape and type. -/
def spark_factorial (args : List ColumnarValue) :
    Except DataFusionError ColumnarValue :=
  match take_function_args1 "factorial" args with
  | Except.error e => Except.error e
  | Except.ok arg =>
    match arg with
    | ColumnarValue.scalar (ScalarValue.int32 value) =>
        Except.ok (ColumnarValue.scalar (ScalarValue.int64 (compute_factorial value)))
    | ColumnarValue.scalar other =>
        Except.error (DataFusionError.execution
          ("`factorial` got an unexpected scalar type: " ++ other.display))
    | ColumnarValue.array array =>
        match array with
        | ArrowArray.int32 values =>
            Except.ok (ColumnarValue.array
              (ArrowArray.int64 (values.map compute_factorial)))
        | other =>
            Except.error (DataFusionError.execution
              ("`factorial` got an unexpected argument type: " ++ other.data_type.display))

/-- `ScalarFunctionArgs`, restricted to the field this module reads. -/
structure ScalarFunctionArgs where
  args : List ColumnarValue
  deriving DecidableEq, Repr

/-- `ScalarUDFImpl::invoke_with_args` for `SparkFactorial`: delegates to
`spark_factorial`. -/
def SparkFactorial.invoke_with_args (_ : SparkFactorial)
    (a : ScalarFunctionArgs) : Except DataFusionError ColumnarValue :=
  spark_factorial a.args

/-! ## Helper lemmas -/

/-- Each table entry below index 21 is the exact factorial of its index. -/
theorem FACTORIALS_getD_factorial :
    ∀ n : Nat, n < 21 → FACTORIALS.getD n 0 = (Nat.factorial n : Int) := by
  decide

/-! ## Claim theorems -/

/-- C4: the domain table has length exactly 21, entries 0 and 1 equal 1, each
entry at index `2 ≤ i ≤ 20` is `i` times the previous entry, every entry fits
exactly in a signed 64-bit integer, and entry 20 is 2432902008176640000. -/
theorem FACTORIALS_table_spec :
    FACTORIALS.length = 21
    ∧ FACTORIALS.getD 0 0 = 1
    ∧ FACTORIALS.getD 1 0 = 1
    ∧ (∀ i : Nat, 2 ≤ i → i ≤ 20 →
        FACTORIALS.getD i 0 = (i : Int) * FACTORIALS.getD (i - 1) 0)
    ∧ (∀ i : Nat, i < 21 →
        (-(2 ^ 63) : Int) ≤ FACTORIALS.getD i 0 ∧ FACTORIALS.getD i 0 < 2 ^ 63)
    ∧ FACTORIALS.getD 20 0 = 2432902008176640000 := by
  refine ⟨rfl, rfl, rfl, ?_, ?_, rfl⟩
  · intro i h2 h20
    interval_cases i <;> decide
  · intro i h
    interval_cases i <;> constructor <;> decide

/-- Witness for C4 at concrete indices 5 and 20. -/
theorem FACTORIALS_table_spec_witness :
    FACTORIALS.getD 5 0 = (5 : Int) * FACTORIALS.getD 4 0
    ∧ FACTORIALS.getD 20 0 < 2 ^ 63 :=
  ⟨FACTORIALS_table_spec.2.2.2.1 5 (by decide) (by decide),
   (FACTORIALS_table_spec.2.2.2.2.1 20 (by decide)).2⟩

/-- C1: the output element is present if and only if the input element is
present with a value `v` satisfying `0 ≤ v ≤ 20`; when present, it equals the
table entry `FACTORIALS[v]`, which is the exact factorial of `v`. -/
theorem compute_factorial_spec (num : Option Int) :
    ((compute_factorial num).isSome
      ↔ ∃ v : Int, num = some v ∧ 0 ≤ v ∧ v ≤ 20)
    ∧ (∀ v : Int, num = some v → 0 ≤ v → v ≤ 20 →
        compute_factorial num = some (FACTORIALS.getD v.toNat 0)
        ∧ FACTORIALS.getD v.toNat 0 = (Nat.factorial v.toNat : Int)) := by
  constructor
  · cases num with
    | none => simp [compute_factorial]
    | some v =>
        by_cases h : 0 ≤ v ∧ v ≤ 20 <;>
          simp [compute_factorial, Option.filter, h]
  · intro v hv h0 h20
    subst hv
    have hb : v.toNat < 21 := by omega
    constructor
    · simp [compute_factorial, Option.filter, h0, h20]
    · exact FACTORIALS_getD_factorial v.toNat hb

/-- Witness for C1 at the concrete input `some 5`. -/
theorem compute_factorial_spec_witness :
    compute_factorial (some (5 : Int)) = some (FACTORIALS.getD (5 : Int).toNat 0)
    ∧ FACTORIALS.getD (5 : Int).toNat 0 = (Nat.factorial (5 : Int).toNat : Int) :=
  (compute_factorial_spec (some 5)).2 5 rfl (by norm_num) (by norm_num)

/-- C5: the per-element lookup is total — `none` maps to `none`, every value
outside `[0, 20]` (including the extreme 32-bit values) maps to `none`, and
whenever the guard `0 ≤ v ≤ 20` holds the table index `v.toNat` is within the
table's bounds. -/
theorem compute_factorial_safe :
    compute_factorial none = none
    ∧ (∀ v : Int, v < 0 ∨ 20 < v → compute_factorial (some v) = none)
    ∧ compute_factorial (some (-2147483648)) = none
    ∧ compute_factorial (some 2147483647) = none
    ∧ (∀ v : Int, 0 ≤ v → v ≤ 20 → v.toNat < FACTORIALS.length) := by
  refine ⟨rfl, ?_, by decide, by decide, ?_⟩
  · intro v hv
    have h : ¬(0 ≤ v ∧ v ≤ 20) := by omega
    simp [compute_factorial, Option.filter, h]
  · intro v h0 h20
    simp only [FACTORIALS, List.length]
    omega

/-- Witness for C5 at the concrete out-of-range input 21 and in-range input 2. -/
theorem compute_factorial_safe_witness :
    compute_factorial (some (21 : Int)) = none
    ∧ (2 : Int).toNat < FACTORIALS.length :=
  ⟨compute_factorial_safe.2.1 21 (Or.inr (by norm_num)),
   compute_factorial_safe.2.2.2.2 2 (by norm_num) (by norm_num)⟩

/-- C3: batch evaluation on an `Int32` array succeeds, produces an `Int64`
array of the same length, and its element at every index equals the scalar
evaluation of the input element at that index. -/
theorem spark_factorial_batch (S : List (Option Int)) :
    spark_factorial [ColumnarValue.array (ArrowArray.int32 S)]
      = Except.ok (ColumnarValue.array (ArrowArray.int64 (S.map compute_factorial)))
    ∧ (S.map compute_factorial).length = S.length
    ∧ (∀ i : Nat, ∀ h : i < S.length,
        (S.map compute_factorial).get ⟨i, by simpa using h⟩
          = compute_factorial (S.get ⟨i, h⟩)) := by
  refine ⟨rfl, by simp, ?_⟩
  intro i h
  simp

/-- Witness for C3 at the concrete batch `[some 3, none]`, index 1. -/
theorem spark_factorial_batch_witness :
    ([some (3 : Int), none].map compute_factorial).get ⟨1, by decide⟩
      = compute_factorial (([some (3 : Int), none]).get ⟨1, by decide⟩) :=
  (spark_factorial_batch [some 3, none]).2.2 1 (by decide)

/-- C8: the test scenarios — the batch `[-1, 0, 1, 2, 4, 20, 21, null]` maps
to `[null, 1, 1, 2, 24, 2432902008176640000, null, null]`, and the scalar 5
maps to the scalar 120. -/
theorem spark_factorial_scenarios :
    spark_factorial [ColumnarValue.array (ArrowArray.int32
        [some (-1), some 0, some 1, some 2, some 4, some 20, some 21, none])]
      = Except.ok (ColumnarValue.array (ArrowArray.int64
        [none, some 1, some 1, some 2, some 24, some 2432902008176640000,
         none, none]))
    ∧ spark_factorial [ColumnarValue.scalar (ScalarValue.int32 (some 5))]
      = Except.ok (ColumnarValue.scalar (ScalarValue.int64 (some 120))) := by
  constructor <;> rfl

/-- C6: a single argument whose runtime type is not `Int32` — a scalar of
another type or an array of another element type — yields an execution error
whose message names the unexpected type, and no ok result is produced. -/
theorem spark_factorial_type_error :
    (∀ sv : ScalarValue, (∀ v : Option Int, sv ≠ ScalarValue.int32 v) →
      spark_factorial [ColumnarValue.scalar sv]
        = Except.error (DataFusionError.execution
            ("`factorial` got an unexpected scalar type: " ++ sv.display)))
    ∧ (∀ a : ArrowArray, (∀ vs : List (Option Int), a ≠ ArrowArray.int32 vs) →
      spark_factorial [ColumnarValue.array a]
        = Except.error (DataFusionError.execution
            ("`factorial` got an unexpected argument type: "
              ++ a.data_type.display))) := by
  constructor
  · intro sv h
    cases sv with
    | int32 v => exact absurd rfl (h v)
    | int64 _ => rfl
    | utf8 _ => rfl
    | boolean _ => rfl
  · intro a h
    cases a with
    | int32 vs => exact absurd rfl (h vs)
    | int64 _ => rfl
    | utf8 _ => rfl
    | boolean _ => rfl

/-- Witness for C6 at a concrete Utf8 scalar and a concrete Boolean array. -/
theorem spark_factorial_type_error_witness :
    spark_factorial [ColumnarValue.scalar (ScalarValue.utf8 (some "a"))]
      = Except.error (DataFusionError.execution
          ("`factorial` got an unexpected scalar type: "
            ++ (ScalarValue.utf8 (some "a")).display))
    ∧ spark_factorial [ColumnarValue.array (ArrowArray.boolean [some true])]
      = Except.error (DataFusionError.execution
          ("`factorial` got an unexpected argument type: "
            ++ (ArrowArray.boolean [some true]).data_type.display)) :=
  ⟨spark_factorial_type_error.1 (ScalarValue.utf8 (some "a"))
     (fun _ h => ScalarValue.noConfusion h),
   spark_factorial_type_error.2 (ArrowArray.boolean [some true])
     (fun _ h => ArrowArray.noConfusion h)⟩

/-- C7: an argument list whose length is not 1 is rejected with an execution
error before any evaluation. -/
theorem spark_factorial_arity (args : List ColumnarValue)
    (h : args.length ≠ 1) :
    spark_factorial args
      = Except.error (DataFusionError.execution
          ("factorial function requires 1 argument, got "
            ++ toString args.length)) := by
  match args with
  | [] => rfl
  | [a] => exact absurd rfl h
  | a :: b :: rest => rfl

/-- Witness for C7 at the zero-argument call. -/
theorem spark_factorial_arity_witness :
    spark_factorial []
      = Except.error (DataFusionError.execution
          ("factorial function requires 1 argument, got "
            ++ toString ([] : List ColumnarValue).length)) :=
  spark_factorial_arity [] (by decide)

/-- C9: the UDF is declared `Volatility::Immutable`, and evaluation is a pure
function of the argument list — equal inputs produce equal results. -/
theorem spark_factorial_deterministic :
    SparkFactorial.new.signature.volatility = Volatility.immutable
    ∧ (∀ args1 args2 : List ColumnarValue, args1 = args2 →
        spark_factorial args1 = spark_factorial args2) :=
  ⟨rfl, fun _ _ h => h ▸ rfl⟩

/-- Witness for C9 at a concrete repeated call. -/
theorem spark_factorial_deterministic_witness :
    spark_factorial [ColumnarValue.scalar (ScalarValue.int32 (some 5))]
      = spark_factorial [ColumnarValue.scalar (ScalarValue.int32 (some 5))] :=
  spark_factorial_deterministic.2 _ _ rfl

/-- C2 counterexample: for the single non-nullable `Int32` input field, the
declared output field has `nullable = false`, not `true` as the claim states
(and `ok` of a field with `nullable = false` differs from `ok` of the same
field with `nullable = true`). -/
theorem return_field_nullability_counterexample :
    SparkFactorial.new.return_field_from_args
        ⟨[⟨"x", DataType.int32, false⟩], [none]⟩
      = Except.ok ⟨"factorial", DataType.int64, false⟩
    ∧ (Except.ok (⟨"factorial", DataType.int64, false⟩ : ArrowField)
        : Except DataFusionError ArrowField)
      ≠ Except.ok ⟨"factorial", DataType.int64, true⟩ :=
  ⟨rfl, by intro h; simp at h⟩

/-- C2 (amended): the declared output field always has type `Int64` and name
`factorial`, and its declared nullability is `true` exactly when at least one
input field is declared nullable. -/
theorem return_field_from_args_spec (fields : List ArrowField)
    (scalars : List (Option ScalarValue)) :
    ∃ f : ArrowField,
      SparkFactorial.new.return_field_from_args ⟨fields, scalars⟩ = Except.ok f
      ∧ f.data_type = DataType.int64
      ∧ f.fname = "factorial"
      ∧ (f.nullable = true ↔ ∃ fld ∈ fields, fld.nullable = true) := by
  refine ⟨_, rfl, rfl, rfl, ?_⟩
  simp [SparkFactorial.return_field_from_args, List.any_eq_true]

/-- C10: `return_type` unconditionally returns an internal error for every
argument-type list, while `return_field_from_args` always succeeds. -/
theorem return_type_always_errors (arg_types : List DataType) :
    SparkFactorial.new.return_type arg_types
      = Except.error (DataFusionError.internal
          "return_type should not be called, use return_field_from_args instead")
    ∧ (∀ fields : List ArrowField, ∀ scalars : List (Option ScalarValue),
        (SparkFactorial.new.return_field_from_args ⟨fields, scalars⟩).isOk
          = true) :=
  ⟨rfl, fun _ _ => rfl⟩
